import Mathlib

/-!
Shallow embedding of the Kennel Python plugin SDK runtime
(`src/pkg/sdk/python/module.py`) and proofs about its message protocol,
command dispatcher, lifecycle and shutdown behaviour.

Modelling conventions:
* Python dict/JSON values are modelled by the inductive `Json`; a Python
  `dict` is an association list of string keys (`Json.obj`).
* Python exceptions of class `Exception` are modelled by `Except String`
  (the string is `str(e)`); `SystemExit` / `KeyboardInterrupt`, which the
  runner treats differently from `Exception`, are modelled by `PyExc`.
* Wall-clock readings (`time.time()` and `int(time.time() * 1000)`) are
  modelled by an explicit integer parameter `now` threaded to the few
  places that read the clock.
* `json.loads` is a Python standard-library function outside this
  repository; it is modelled as an oracle parameter
  `loads : String → Except String Json` (`.error` = it raised).
* The concrete plugin behaviour (the `Module` subclass the runner drives)
  is a record of functions `ModuleBehavior`, each returning
  `Except String _` to model a handler that either returns or raises.
-/

namespace Kennel

/-- JSON / Python-dict values exchanged on the wire. -/
inductive Json where
  | null
  | bool (b : Bool)
  | num (n : Int)
  | str (s : String)
  | arr (elems : List Json)
  | obj (fields : List (String × Json))

/-- Key lookup in an association list (Python dict lookup; keys are unique
in dicts produced by `json.loads`, so first match is the value). -/
def findField (fields : List (String × Json)) (key : String) : Option Json :=
  match fields with
  | [] => none
  | (k, v) :: rest => if k = key then some v else findField rest key

/-- `d.get(key)` on a dict: `some` value or `none` when the key is absent.
Only ever applied to `Json.obj` values (the dispatcher guards the case
where the Python code would raise `AttributeError` on a non-dict). -/
def Json.get (j : Json) (key : String) : Option Json :=
  match j with
  | .obj fields => findField fields key
  | _ => none

/-- `d.get(key, default)` on a dict. -/
def Json.getD (j : Json) (key : String) (dflt : Json) : Json :=
  (j.get key).getD dflt

/-- Python truthiness of a JSON-shaped value (`if x:`). -/
def Json.truthy : Json → Bool
  | .null => false
  | .bool b => b
  | .num n => n != 0
  | .str s => !s.isEmpty
  | .arr elems => !elems.isEmpty
  | .obj fields => !fields.isEmpty

/-- Python `x or y` restricted to JSON-shaped values (used for the
`params or \x7b\x7d` style defaults in the `__init__` methods). -/
def pyOr (v dflt : Json) : Json :=
  if v.truthy then v else dflt

/-- Python `x == "s"` where `x` is an arbitrary decoded JSON value: equal
only when `x` is the same string (a non-string never equals a string). -/
def Json.eqStr (j : Json) (s : String) : Bool :=
  match j with
  | .str t => t == s
  | _ => false

/-- `Request` (module.py lines 46-65): state of the object after
`Request.from_dict(data)` ran `__init__`. Fields hold the raw decoded
values (Python performs no type check on them). -/
structure Request where
  id : Json
  action : Json
  params : Json
  metadata : Json
  timeout : Json

/-- `Request.from_dict` (lines 56-65) composed with `Request.__init__`
(lines 48-54): `id`/`action` default to `""`, `params`/`metadata` default
to `\x7b\x7d` (both via `.get` default and the `or \x7b\x7d` in
`__init__`), `timeout` defaults to `30000`. -/
def Request.from_dict (data : Json) : Request where
  id := data.getD "id" (.str "")
  action := data.getD "action" (.str "")
  params := pyOr (data.getD "params" (.obj [])) (.obj [])
  metadata := pyOr (data.getD "metadata" (.obj [])) (.obj [])
  timeout := data.getD "timeout" (.num 30000)

/-- `Response` (lines 67-87): state after `__init__`. `error` is `none`
when the Python field is `None`. -/
structure Response where
  id : Json
  success : Bool
  data : Json
  error : Option Json
  metadata : Json

/-- `Response.__init__` (lines 69-75): `data`/`metadata` get the
`arg or \x7b\x7d` treatment (an absent argument is `None`); `error` is
stored as passed. -/
def mkResponse (id : Json) (success : Bool)
    (dataArg errorArg metadataArg : Option Json) : Response where
  id := id
  success := success
  data := pyOr (dataArg.getD .null) (.obj [])
  error := errorArg
  metadata := pyOr (metadataArg.getD .null) (.obj [])

/-- `Response.to_dict` (lines 77-87): `id`, `success`, `data`, `metadata`
are always present (in that insertion order); `error` is appended only
when `if self.error:` holds, i.e. when the stored error value is truthy. -/
def Response.to_dict (r : Response) : Json :=
  let base := [("id", r.id), ("success", Json.bool r.success),
               ("data", r.data), ("metadata", r.metadata)]
  match r.error with
  | some e => if e.truthy then Json.obj (base ++ [("error", e)]) else Json.obj base
  | none => Json.obj base

/-- `Event` (lines 89-121): state after `Event.from_dict` ran
`__init__`. -/
structure Event where
  id : Json
  type : Json
  source : Json
  data : Json
  metadata : Json
  timestamp : Json

/-- `Event.from_dict` (lines 100-110) composed with `Event.__init__`
(lines 91-98). `now` is the value of `int(time.time() * 1000)`: it is the
`.get` default for a missing `"timestamp"` key, and `__init__` applies
`timestamp or int(time.time() * 1000)` once more, so a falsy (zero)
timestamp is also replaced by the clock. -/
def Event.from_dict (data : Json) (now : Int) : Event where
  id := data.getD "id" (.str "")
  type := data.getD "type" (.str "")
  source := data.getD "source" (.str "")
  data := pyOr (data.getD "data" (.obj [])) (.obj [])
  metadata := pyOr (data.getD "metadata" (.obj [])) (.obj [])
  timestamp := pyOr (data.getD "timestamp" (.num now)) (.num now)

/-- `HealthStatus` (lines 123-137). -/
structure HealthStatus where
  status : Json
  details : Json
  timestamp : Json

/-- `HealthStatus.to_dict` (lines 131-137). -/
def HealthStatus.to_dict (h : HealthStatus) : Json :=
  Json.obj [("status", h.status), ("details", h.details), ("timestamp", h.timestamp)]

/-- `Module.check_health` (lines 180-188), the default health check:
status `"healthy"`, details carrying `uptime = time.time() - self.start_time`
(seconds), timestamp `int(time.time() * 1000)`. Both clock reads are
modelled by the same instant `now` (seconds). -/
def check_health (start_time now : Int) : HealthStatus where
  status := Json.str "healthy"
  details := Json.obj [("uptime", Json.num (now - start_time))]
  timestamp := Json.num (1000 * now)

/-- The concrete plugin driven by `ModuleRunner`: one field per abstract
operation of `Module` (lines 139-188), each returning `Except String _`
(`.error msg` models the call raising an `Exception` whose `str` is
`msg`). `get_info` is the already-serialized `get_info().to_dict()`
result. `check_health_impl` receives the clock reading it may use. -/
structure ModuleBehavior where
  init : Json → Except String Unit
  start : Except String Unit
  stop : Except String Unit
  get_info : Json
  handle_request : Request → Except String Response
  handle_event : Event → Except String Bool
  check_health_impl : Int → Except String HealthStatus

/-- One line written to stdout, identified by its tag (section 6 of the
protocol): `ready` = `KENNEL_PLUGIN_READY`, `pluginError` =
`KENNEL_PLUGIN_ERROR`, `response` = `KENNEL_RESPONSE`, `eventResponse` =
`KENNEL_EVENT_RESPONSE`, `healthResponse` = `KENNEL_HEALTH_RESPONSE`,
`error` = `KENNEL_ERROR`. -/
inductive Frame where
  | ready (payload : Json)
  | pluginError (payload : Json)
  | response (payload : Json)
  | eventResponse (payload : Json)
  | healthResponse (payload : Json)
  | error (payload : Json)

/-- `ModuleRunner.send_error_response` (lines 402-409): one
`KENNEL_ERROR` frame with payload `\x7b"error": str(e)\x7d`. -/
def send_error_response (e : String) : Frame :=
  Frame.error (Json.obj [("error", Json.str e)])

/-- `ModuleRunner.send_event_response` (lines 385-393). -/
def send_event_response (event_id : Json) (success : Bool) : Frame :=
  Frame.eventResponse (Json.obj [("event_id", event_id), ("success", Json.bool success)])

/-- Which of the module's steady-state handlers a dispatch invoked. -/
inductive HandlerCall where
  | request
  | event
  | health

/-- Result of `ModuleRunner.handle_command`: frames written, plus the
lifecycle handlers that were invoked while handling the command. -/
structure DispatchResult where
  frames : List Frame
  calls : List HandlerCall

/-- `str(AttributeError)` produced at line 373: `self.logger.warning(...)`
looks up a `warning` method, but the `Logger` class in `logger.py` only
defines `warn` (plus trace/debug/info/error), so the attribute lookup
raises before the message is even formatted. CPython's message wraps the
two names in single quotes; the quotes are immaterial to every property
proved here and are omitted from the modelled text. -/
def logger_warning_attribute_error : String :=
  "Logger object has no attribute warning"

/-- Python type name of a decoded JSON value, as it appears in the
`AttributeError` raised by calling `.get` on a non-dict. -/
def py_type_name : Json → String
  | .null => "NoneType"
  | .bool _ => "bool"
  | .num _ => "int"
  | .str _ => "str"
  | .arr _ => "list"
  | .obj _ => "dict"

/-- `str(AttributeError)` for `x.get(...)` where `x` is not a dict
(again modelled without CPython's quoting of the names). -/
def no_get_attribute_error (j : Json) : String :=
  py_type_name j ++ " object has no attribute get"

/-- `ModuleRunner.handle_command` (lines 348-377). `parsed` is the
outcome of `json.loads(command_json)` at line 351 (`.error` = it raised,
caught at line 374). The branches:
* parse failure, or any `Exception` escaping the body, lands in the
  `except` at line 374 and becomes one `KENNEL_ERROR` frame;
* `command.get(...)` on a non-dict raises `AttributeError` (caught);
* type `"request"` / `"event"` with a non-dict `data` raises
  `AttributeError` inside `from_dict` before any handler runs (caught);
* unknown command type reaches line 373, whose `logger.warning` call
  raises `AttributeError` (caught) — so an error frame is emitted whose
  message has nothing to do with the command's type. -/
def handle_command (m : ModuleBehavior) (now : Int)
    (parsed : Except String Json) : DispatchResult :=
  match parsed with
  | .error e => ⟨[send_error_response e], []⟩
  | .ok command =>
    match command with
    | .obj fields =>
      let command_type := (Json.obj fields).getD "type" (.str "")
      let command_data := (Json.obj fields).getD "data" (.obj [])
      if command_type.eqStr "request" then
        match command_data with
        | .obj _ =>
          match m.handle_request (Request.from_dict command_data) with
          | .ok response => ⟨[Frame.response response.to_dict], [.request]⟩
          | .error e => ⟨[send_error_response e], [.request]⟩
        | _ => ⟨[send_error_response (no_get_attribute_error command_data)], []⟩
      else if command_type.eqStr "event" then
        match command_data with
        | .obj _ =>
          match m.handle_event (Event.from_dict command_data now) with
          | .ok success =>
            ⟨[send_event_response (Event.from_dict command_data now).id success], [.event]⟩
          | .error e => ⟨[send_error_response e], [.event]⟩
        | _ => ⟨[send_error_response (no_get_attribute_error command_data)], []⟩
      else if command_type.eqStr "health_check" then
        match m.check_health_impl now with
        | .ok health => ⟨[Frame.healthResponse health.to_dict], [.health]⟩
        | .error e => ⟨[send_error_response e], [.health]⟩
      else
        ⟨[send_error_response logger_warning_attribute_error], []⟩
    | other => ⟨[send_error_response (no_get_attribute_error other)], []⟩

/-- The ASCII whitespace characters removed by Python's `str.strip()`
(the further Unicode whitespace it also strips plays no role here). -/
def is_py_space (c : Char) : Bool :=
  c == ' ' || c == '\t' || c == '\n' || c == '\r' || c == '\x0b' || c == '\x0c'

/-- Python `line.strip()`, over the line's character list. -/
def py_strip (s : List Char) : List Char :=
  ((s.dropWhile is_py_space).reverse.dropWhile is_py_space).reverse

/-- Python `line.startswith(pre)`, over character lists. -/
def chars_start (pre s : List Char) : Bool :=
  match pre, s with
  | [], _ => true
  | _ :: _, [] => false
  | p :: ps, c :: cs => p == c && chars_start ps cs

/-- Outcome of running the `while True` read loop (lines 321-333) for a
bounded number of iterations: either the fuel ran out with the loop still
spinning, or `break` was reached at a `KENNEL_STOP` line. -/
inductive LoopFin where
  | fuelOut (frames : List Frame)
  | finished (frames : List Frame)

/-- The read loop of `ModuleRunner.command_loop` (lines 321-333), fuel
passed explicitly. `input i` is the string returned by the i-th
`sys.stdin.readline()` call — at end of file `readline` returns `""`
forever, which after `.strip()` is indistinguishable from a blank line.
Per iteration: strip; `if not line: continue`; a `KENNEL_COMMAND:` line
has its 15-character tag sliced off (`line[15:]`), is dispatched (its
frames appended) and the loop continues; `KENNEL_STOP` breaks; any other
line silently falls through and the loop continues. Line slicing and the
`startswith` test are over the line's character list. -/
def command_loop_steps (m : ModuleBehavior) (loads : String → Except String Json)
    (now : Int) (input : Nat → String) : Nat → Nat → List Frame → LoopFin
  | 0, _, acc => .fuelOut acc
  | fuel + 1, i, acc =>
    let line := py_strip (input i).toList
    if line.isEmpty then
      command_loop_steps m loads now input fuel (i + 1) acc
    else if chars_start "KENNEL_COMMAND:".toList line then
      command_loop_steps m loads now input fuel (i + 1)
        (acc ++ (handle_command m now (loads (String.mk (line.drop 15)))).frames)
    else if line == "KENNEL_STOP".toList then
      .finished acc
    else
      command_loop_steps m loads now input fuel (i + 1) acc

/-- What happens after the read loop exits normally (`break` on
`KENNEL_STOP`, or a caught `KeyboardInterrupt`/`Exception`): the
`finally` block (lines 339-346) calls `module.stop()` inside its own
`try`, absorbing any `Exception`; `command_loop` then returns, `run`
returns, and the interpreter exits 0. Result: (number of `stop()`
invocations on this path, process exit code). -/
def command_loop_finish (m : ModuleBehavior) : Nat × Nat :=
  match m.stop with
  | .ok _ => (1, 0)
  | .error _ => (1, 0)

/-- Python exceptions as classified by the runner's `except` clauses:
`except KeyboardInterrupt` (line 334) and `except Exception` (line 336)
do not catch `SystemExit`. -/
inductive PyExc where
  | systemExit (code : Nat)
  | keyboardInterrupt
  | exception (msg : String)

/-- `ModuleRunner._handle_signal` (lines 307-314), run by the interpreter
in the main thread when SIGINT/SIGTERM arrives: it calls `module.stop()`
(one invocation; a raised `Exception` is caught at line 312 and only
logged), then `sys.exit(0)` raises `SystemExit(0)`, which propagates out
of the handler into whatever frame the signal interrupted. Result:
(number of `stop()` invocations, the exception leaving the handler). -/
def handle_signal (m : ModuleBehavior) : Nat × PyExc :=
  match m.stop with
  | .ok _ => (1, .systemExit 0)
  | .error _ => (1, .systemExit 0)

/-- Propagation of an in-flight exception through `command_loop`'s
`try` block (lines 320-346): `KeyboardInterrupt` and `Exception` are
caught and logged; `SystemExit` is neither. Either way the `finally`
block calls `module.stop()` once more (its own `Exception`s absorbed at
line 344). Result: (stop invocations in the cleanup, the exception still
propagating after `command_loop`, if any). -/
def loop_exc_cleanup (m : ModuleBehavior) (exc : PyExc) : Nat × Option PyExc :=
  let caught : Bool :=
    match exc with
    | .keyboardInterrupt => true
    | .exception _ => true
    | .systemExit _ => false
  let pending : Option PyExc := if caught then none else some exc
  match m.stop with
  | .ok _ => (1, pending)
  | .error _ => (1, pending)

/-- End-to-end effect of a termination signal delivered while the worker
is blocked in `readline()` (line 323, inside `command_loop`'s `try`):
`_handle_signal` runs to completion, its `SystemExit(0)` resumes at the
interrupted read and unwinds through `command_loop` (`loop_exc_cleanup`),
and whatever exception is still pending unwinds through `run` — whose
`except Exception` (line 295) catches only `Exception`, so a pending
`SystemExit c` terminates the process with code `c`, no pending exception
means a normal return and exit 0, and a pending `Exception` would be
converted to a fatal startup-style exit 1. Result: (total `stop()`
invocations, process exit code). -/
def signal_during_read (m : ModuleBehavior) : Nat × Nat :=
  let h := handle_signal m
  let c := loop_exc_cleanup m h.2
  let code : Nat :=
    match c.2 with
    | none => 0
    | some (.systemExit k) => k
    | some .keyboardInterrupt => 1
    | some (.exception _) => 1
  (h.1 + c.1, code)

/-- Payload of the `KENNEL_PLUGIN_ERROR` frame built at lines 298-303. -/
def plugin_error_payload (plugin_id e : String) : Json :=
  Json.obj [("status", Json.str "error"), ("plugin_id", Json.str plugin_id),
            ("error", Json.str e)]

/-- Outcome of `ModuleRunner.run` up to the point where it either enters
`command_loop` or dies in its `except` clause. -/
inductive RunOutcome where
  | startupFailure (frames : List Frame) (exitCode : Nat) (stopCalls : Nat)
  | enteredLoop (framesBefore : List Frame)

/-- The startup portion of `ModuleRunner.run` (lines 271-305):
`json.loads` on the configuration, `module.init(config)`,
`module.start()`, then the `KENNEL_PLUGIN_READY` frame, after which
control passes to `command_loop`. Any `Exception` raised on the way is
caught at line 295, one `KENNEL_PLUGIN_ERROR` frame is printed and
`sys.exit(1)` runs; `module.stop()` is not called anywhere on that
path. -/
def run_startup (m : ModuleBehavior) (loads : String → Except String Json)
    (plugin_id config_json : String) : RunOutcome :=
  match loads config_json with
  | .error e => .startupFailure [Frame.pluginError (plugin_error_payload plugin_id e)] 1 0
  | .ok config =>
    match m.init config with
    | .error e => .startupFailure [Frame.pluginError (plugin_error_payload plugin_id e)] 1 0
    | .ok _ =>
      match m.start with
      | .error e => .startupFailure [Frame.pluginError (plugin_error_payload plugin_id e)] 1 0
      | .ok _ =>
        .enteredLoop [Frame.ready (Json.obj [("status", Json.str "ready"),
          ("plugin_id", Json.str plugin_id), ("info", m.get_info)])]

/-- Does `pat` occur as a contiguous run inside `s`? -/
def chars_has (pat : List Char) : List Char → Bool
  | [] => pat.isEmpty
  | c :: cs => chars_start pat (c :: cs) || chars_has pat cs

/-- Does the text `msg` mention `t` (as a substring)? Used to formalise
"an error frame naming the unknown type". -/
def str_mentions (msg t : String) : Bool :=
  chars_has t.toList msg.toList

/-- Whether `Response.to_dict` will include the `error` key: the Python
`if self.error:` test. -/
def error_truthy (r : Response) : Bool :=
  match r.error with
  | some e => e.truthy
  | none => false

/-- The field-presence property claimed of every serialized `Response`:
`data` present exactly when `success` is true, `error` present exactly
when `success` is false. -/
def response_fields_spec (r : Response) : Prop :=
  ((r.to_dict.get "data").isSome ↔ r.success = true) ∧
  ((r.to_dict.get "error").isSome ↔ r.success = false)

/-- A concrete module behaviour used to instantiate theorems: every
operation returns normally and `handle_request` echoes the request id
into the response, as the SDK's `BaseModule` and the example plugin do.
This is a fixture (an inhabitant of `ModuleBehavior`), not an embedding
of a specific plugin. -/
def w_module : ModuleBehavior where
  init := fun _ => .ok ()
  start := .ok ()
  stop := .ok ()
  get_info := Json.obj [("id", Json.str "w"), ("language", Json.str "python")]
  handle_request := fun r => .ok (mkResponse r.id true none none none)
  handle_event := fun _ => .ok true
  check_health_impl := fun now => .ok (check_health 0 now)

/-- Fixture whose request handler raises on requests with id `"bad"` and
returns normally (echoing the id) otherwise, whose event handler raises
on events with id `"bad"`, and whose health check always raises. -/
def w_mixed : ModuleBehavior where
  init := fun _ => .ok ()
  start := .ok ()
  stop := .ok ()
  get_info := Json.obj []
  handle_request := fun r =>
    if r.id.eqStr "bad" then .error "boom" else .ok (mkResponse r.id true none none none)
  handle_event := fun ev =>
    if ev.id.eqStr "bad" then .error "event boom" else .ok true
  check_health_impl := fun _ => .error "health boom"

/-- Fixture whose `init` raises. -/
def w_bad_init : ModuleBehavior where
  init := fun _ => .error "init failed"
  start := .ok ()
  stop := .ok ()
  get_info := Json.obj []
  handle_request := fun r => .ok (mkResponse r.id true none none none)
  handle_event := fun _ => .ok true
  check_health_impl := fun now => .ok (check_health 0 now)

/-- Fixture whose `stop` raises. -/
def w_bad_stop : ModuleBehavior where
  init := fun _ => .ok ()
  start := .ok ()
  stop := .error "stop failed"
  get_info := Json.obj []
  handle_request := fun r => .ok (mkResponse r.id true none none none)
  handle_event := fun _ => .ok true
  check_health_impl := fun now => .ok (check_health 0 now)

/-- A `json.loads` oracle for witness instantiations, consistent with
JSON semantics on the few strings the witnesses feed it. -/
def w_loads : String → Except String Json :=
  fun s =>
    if s = "BAD" then .error "Expecting value"
    else if s = "GOOD" then
      .ok (Json.obj [("type", Json.str "request"), ("data", Json.obj [("id", Json.str "1")])])
    else if s = "FOO" then .ok (Json.obj [("type", Json.str "foo"), ("data", Json.obj [])])
    else if s = "CFG" then .ok (Json.obj [])
    else .error "unused"

/-- Stdin for the malformed-command witness: a malformed command, then a
valid request, then a stop frame. -/
def w_input_bad : Nat → String :=
  fun i =>
    if i = 0 then "KENNEL_COMMAND:BAD"
    else if i = 1 then "KENNEL_COMMAND:GOOD"
    else "KENNEL_STOP"

/-- Stdin for the unknown-command-type witness: an unknown-type command,
then a valid request, then a stop frame. -/
def w_input_foo : Nat → String :=
  fun i =>
    if i = 0 then "KENNEL_COMMAND:FOO"
    else if i = 1 then "KENNEL_COMMAND:GOOD"
    else "KENNEL_STOP"

/-! ## Helper lemmas -/

theorem mk_toList (s : String) : String.mk s.toList = s := rfl

theorem chars_start_append (pre rest : List Char) : chars_start pre (pre ++ rest) = true := by
  induction pre with
  | nil => rfl
  | cons c cs ih => simp [chars_start, ih]

/-- One loop iteration on a line that strips to `KENNEL_COMMAND:` plus a
payload: the payload is dispatched and the loop continues. -/
theorem loop_step_cmd (m : ModuleBehavior) (loads : String → Except String Json)
    (now : Int) (input : Nat → String) (fuel i : Nat) (acc : List Frame) (payload : String)
    (h : py_strip (input i).toList = "KENNEL_COMMAND:".toList ++ payload.toList) :
    command_loop_steps m loads now input (fuel + 1) i acc
      = command_loop_steps m loads now input fuel (i + 1)
          (acc ++ (handle_command m now (loads payload)).frames) := by
  have h15 : "KENNEL_COMMAND:".toList
      = ['K','E','N','N','E','L','_','C','O','M','M','A','N','D',':'] := rfl
  rw [h15] at h
  simp only [command_loop_steps, h, h15]
  simp [chars_start, mk_toList]

/-- One loop iteration on a line that strips to `KENNEL_STOP`: the loop
breaks with the frames accumulated so far. -/
theorem loop_step_stop (m : ModuleBehavior) (loads : String → Except String Json)
    (now : Int) (input : Nat → String) (fuel i : Nat) (acc : List Frame)
    (h : py_strip (input i).toList = "KENNEL_STOP".toList) :
    command_loop_steps m loads now input (fuel + 1) i acc = .finished acc := by
  simp only [command_loop_steps, h]
  simp [chars_start]

/-- Dispatch of a well-formed request envelope whose handler returns a
response: one `KENNEL_RESPONSE` frame, one `handle_request` call. -/
theorem dispatch_request_ok (m : ModuleBehavior) (now : Int)
    (fs ds : List (String × Json)) (resp : Response)
    (htype : (Json.obj fs).getD "type" (Json.str "") = Json.str "request")
    (hdata : (Json.obj fs).getD "data" (Json.obj []) = Json.obj ds)
    (hreq : m.handle_request (Request.from_dict (Json.obj ds)) = .ok resp) :
    handle_command m now (.ok (Json.obj fs))
      = ⟨[Frame.response resp.to_dict], [.request]⟩ := by
  simp [handle_command, htype, hdata, hreq, Json.eqStr]

/-- Dispatch of an envelope whose `type` is none of the three recognised
values: one `KENNEL_ERROR` frame carrying the `AttributeError` message
from the broken `logger.warning` call, and no handler invoked. -/
theorem dispatch_unknown_type (m : ModuleBehavior) (now : Int)
    (fs : List (String × Json))
    (h1 : ((Json.obj fs).getD "type" (Json.str "")).eqStr "request" = false)
    (h2 : ((Json.obj fs).getD "type" (Json.str "")).eqStr "event" = false)
    (h3 : ((Json.obj fs).getD "type" (Json.str "")).eqStr "health_check" = false) :
    handle_command m now (.ok (Json.obj fs))
      = ⟨[send_error_response logger_warning_attribute_error], []⟩ := by
  simp [handle_command, h1, h2, h3]

/-- The `id` entry of a serialized response is the response's `id` field,
whether or not the `error` key is appended. -/
theorem to_dict_get_id (r : Response) : r.to_dict.get "id" = some r.id := by
  cases herr : r.error with
  | none => simp [Response.to_dict, Json.get, findField, herr]
  | some e =>
    cases ht : e.truthy <;> simp [Response.to_dict, Json.get, findField, herr, ht]

/-! ## Claims -/

/-- Claim C1 (code_bug): the claim says `stop()` runs at most once per
process lifetime however shutdown is triggered. The code has no guard:
a single termination signal delivered while the worker is blocked in
`readline()` makes `_handle_signal` call `stop()` and raise
`SystemExit(0)`, which is caught by neither `except` clause of
`command_loop`, whose `finally` block then calls `stop()` a second time
before the process exits 0 — for every module behaviour, two `stop()`
invocations from one trigger. -/
theorem signal_path_runs_stop_twice (m : ModuleBehavior) :
    signal_during_read m = (2, 0) := by
  cases h : m.stop <;>
    simp [signal_during_read, handle_signal, loop_exc_cleanup, h]

/-- Claim C2 (code_bug): the claim says that when the host closes the
pipe the read loop terminates, `stop()` runs once and the process exits
0. At end of file `readline()` returns `""` forever; the loop's
`if not line: continue` treats that exactly like a blank line, so for
every fuel bound the loop is still spinning (`fuelOut`), never reaching
the `break`/`finally` path that would run `stop()` and exit. -/
theorem eof_loop_never_terminates (m : ModuleBehavior)
    (loads : String → Except String Json) (now : Int) :
    ∀ fuel i acc, command_loop_steps m loads now (fun _ => "") fuel i acc = .fuelOut acc := by
  intro fuel
  induction fuel with
  | zero => intro i acc; rfl
  | succ n ih => intro i acc; simpa [command_loop_steps, py_strip] using ih (i + 1) acc

/-- Claim C7 counterexample: a failure response exactly as `BaseModule.
handle_request` builds one (`success=False` with a `code`/`message`
error dict) serialises with the `data` key present, refuting "the data
field is present exactly when success is true". -/
theorem response_fields_spec_false :
    ¬ response_fields_spec
        (mkResponse (Json.str "1") false none
          (some (Json.obj [("code", Json.str "not_implemented"),
                           ("message", Json.str "m")])) none) := by
  intro h
  exact absurd (h.1.mp (by decide)) (by decide)

/-- Claim C7 (amended): the serialized `Response` always contains the
`data` field (holding the stored, `or \x7b\x7d`-defaulted data mapping)
regardless of the success flag, and contains the `error` field exactly
when the stored error value is truthy (non-None and non-empty) — a
condition independent of the success flag. -/
theorem response_to_dict_fields (r : Response) :
    r.to_dict.get "data" = some r.data ∧
    (r.to_dict.get "error").isSome = error_truthy r := by
  cases herr : r.error with
  | none => simp [Response.to_dict, Json.get, findField, error_truthy, herr]
  | some e =>
    cases ht : e.truthy <;>
      simp [Response.to_dict, Json.get, findField, error_truthy, herr, ht]

/-- Claim C9 (confirmed): the default `check_health`, called at any
instant `t1` at or after the `start_time` the running module recorded,
reports status `"healthy"` with a non-negative uptime
`t1 - start_time` in its details, and at any later instant `t2` the
reported uptime is at least as large. The wall clock is modelled as a
monotone integer parameter. -/
theorem default_check_health_monotone (start_time t1 t2 : Int)
    (h1 : start_time ≤ t1) (h2 : t1 ≤ t2) :
    (check_health start_time t1).status = Json.str "healthy" ∧
    (check_health start_time t1).details.get "uptime" = some (Json.num (t1 - start_time)) ∧
    0 ≤ t1 - start_time ∧
    (check_health start_time t2).details.get "uptime" = some (Json.num (t2 - start_time)) ∧
    t1 - start_time ≤ t2 - start_time := by
  refine ⟨rfl, ?_, by omega, ?_, by omega⟩ <;> simp [check_health, Json.get, findField]

/-- Witness for C9 at `start_time = 3`, `t1 = 5`, `t2 = 9`. -/
theorem default_check_health_monotone_witness :
    (3 : Int) ≤ 5 ∧ (5 : Int) ≤ 9 ∧
    ((check_health 3 5).status = Json.str "healthy" ∧
     (check_health 3 5).details.get "uptime" = some (Json.num (5 - 3)) ∧
     0 ≤ (5 : Int) - 3 ∧
     (check_health 3 9).details.get "uptime" = some (Json.num (9 - 3)) ∧
     (5 : Int) - 3 ≤ 9 - 3) :=
  ⟨by omega, by omega, default_check_health_monotone 3 5 9 (by omega) (by omega)⟩

/-- Claim C10 (confirmed): on both shutdown paths — the signal handler
(`except Exception` at line 312) and the loop's `finally` block
(`except Exception` at line 344) — an exception raised by the module's
`stop()` is absorbed: the cleanup completes, nothing propagates, and the
process exit code is the graceful 0 on the loop path and 0 from
`sys.exit(0)` on the signal path. -/
theorem stop_exception_absorbed (m : ModuleBehavior) (e : String)
    (hstop : m.stop = .error e) :
    command_loop_finish m = (1, 0) ∧ signal_during_read m = (2, 0) := by
  simp [command_loop_finish, signal_during_read, handle_signal, loop_exc_cleanup, hstop]

/-- Witness for C10 with the fixture whose `stop` raises. -/
theorem stop_exception_absorbed_witness :
    w_bad_stop.stop = .error "stop failed" ∧
    (command_loop_finish w_bad_stop = (1, 0) ∧ signal_during_read w_bad_stop = (2, 0)) :=
  ⟨rfl, stop_exception_absorbed w_bad_stop "stop failed" rfl⟩

/-- Claim C3 counterexample: for the unknown command type `"foo"` the
dispatcher does emit exactly one `KENNEL_ERROR` frame and invokes no
handler, but the frame carries the constant `AttributeError` text from
the broken `logger.warning` call — it does not mention `"foo"`, refuting
"naming the unknown type". -/
theorem unknown_type_frame_lacks_type_name :
    handle_command w_module 0
        (.ok (Json.obj [("type", Json.str "foo"), ("data", Json.obj [])]))
      = ⟨[send_error_response logger_warning_attribute_error], []⟩ ∧
    str_mentions logger_warning_attribute_error "foo" = false :=
  ⟨rfl, by decide⟩

/-- Claim C3 (amended): for every envelope whose `type` is none of
`"request"`, `"event"`, `"health_check"`, the dispatcher emits exactly
one `KENNEL_ERROR` frame, invokes no lifecycle handler, and does not
terminate the loop — a subsequent valid request command on the input is
still processed. But the frame's message is the constant
`AttributeError` text raised by the `logger.warning` call at line 373
(the `Logger` class defines `warn`, not `warning`); it does not name the
unknown type. -/
theorem unknown_type_amended (m : ModuleBehavior) (loads : String → Except String Json)
    (now : Int) (fs dsG : List (String × Json)) (input : Nat → String)
    (sFoo sGood : String) (respG : Response)
    (h1 : ((Json.obj fs).getD "type" (Json.str "")).eqStr "request" = false)
    (h2 : ((Json.obj fs).getD "type" (Json.str "")).eqStr "event" = false)
    (h3 : ((Json.obj fs).getD "type" (Json.str "")).eqStr "health_check" = false)
    (hfoo : loads sFoo = .ok (Json.obj fs))
    (hgood : loads sGood
      = .ok (Json.obj [("type", Json.str "request"), ("data", Json.obj dsG)]))
    (hgoodreq : m.handle_request (Request.from_dict (Json.obj dsG)) = .ok respG)
    (hi0 : py_strip (input 0).toList = "KENNEL_COMMAND:".toList ++ sFoo.toList)
    (hi1 : py_strip (input 1).toList = "KENNEL_COMMAND:".toList ++ sGood.toList)
    (hi2 : py_strip (input 2).toList = "KENNEL_STOP".toList) :
    handle_command m now (.ok (Json.obj fs))
      = ⟨[send_error_response logger_warning_attribute_error], []⟩ ∧
    command_loop_steps m loads now input 3 0 []
      = .finished [send_error_response logger_warning_attribute_error,
                   Frame.response respG.to_dict] := by
  have hd := dispatch_unknown_type m now fs h1 h2 h3
  have hdg : handle_command m now
      (.ok (Json.obj [("type", Json.str "request"), ("data", Json.obj dsG)]))
      = ⟨[Frame.response respG.to_dict], [.request]⟩ :=
    dispatch_request_ok m now _ dsG respG rfl rfl hgoodreq
  refine ⟨hd, ?_⟩
  calc
    command_loop_steps m loads now input 3 0 []
        = command_loop_steps m loads now input 2 1
            ([] ++ (handle_command m now (loads sFoo)).frames) :=
      loop_step_cmd m loads now input 2 0 [] sFoo hi0
    _ = command_loop_steps m loads now input 2 1
          [send_error_response logger_warning_attribute_error] := by
      rw [hfoo, hd]; rfl
    _ = command_loop_steps m loads now input 1 2
          ([send_error_response logger_warning_attribute_error]
            ++ (handle_command m now (loads sGood)).frames) :=
      loop_step_cmd m loads now input 1 1 _ sGood hi1
    _ = command_loop_steps m loads now input 1 2
          [send_error_response logger_warning_attribute_error,
           Frame.response respG.to_dict] := by
      rw [hgood, hdg]; rfl
    _ = .finished [send_error_response logger_warning_attribute_error,
                   Frame.response respG.to_dict] :=
      loop_step_stop m loads now input 0 2 _ hi2

/-- Witness for C3's amended theorem: unknown type `"foo"` followed by a
valid request, over the concrete fixtures. -/
theorem unknown_type_amended_witness :
    w_loads "FOO" = .ok (Json.obj [("type", Json.str "foo"), ("data", Json.obj [])]) ∧
    w_loads "GOOD" = .ok (Json.obj [("type", Json.str "request"),
      ("data", Json.obj [("id", Json.str "1")])]) ∧
    (handle_command w_module 7
        (.ok (Json.obj [("type", Json.str "foo"), ("data", Json.obj [])]))
      = ⟨[send_error_response logger_warning_attribute_error], []⟩ ∧
    command_loop_steps w_module w_loads 7 w_input_foo 3 0 []
      = .finished [send_error_response logger_warning_attribute_error,
          Frame.response (mkResponse (Json.str "1") true none none none).to_dict]) :=
  ⟨rfl, rfl,
    unknown_type_amended w_module w_loads 7
      [("type", Json.str "foo"), ("data", Json.obj [])] [("id", Json.str "1")]
      w_input_foo "FOO" "GOOD" (mkResponse (Json.str "1") true none none none)
      rfl rfl rfl rfl rfl rfl rfl rfl rfl⟩

/-- Claim C4 (confirmed): a well-formed request envelope whose data
carries id `X`, dispatched to a handler that returns a `Response`
echoing the request's id (as `BaseModule.handle_request` and the example
plugin do), yields exactly one `KENNEL_RESPONSE` frame, and the `id`
entry of the serialized response equals `X`. -/
theorem request_response_echoes_id (m : ModuleBehavior) (now : Int)
    (fs ds : List (String × Json)) (X : Json) (resp : Response)
    (htype : (Json.obj fs).getD "type" (Json.str "") = Json.str "request")
    (hdata : (Json.obj fs).getD "data" (Json.obj []) = Json.obj ds)
    (hid : (Json.obj ds).get "id" = some X)
    (hreq : m.handle_request (Request.from_dict (Json.obj ds)) = .ok resp)
    (hecho : resp.id = (Request.from_dict (Json.obj ds)).id) :
    handle_command m now (.ok (Json.obj fs))
      = ⟨[Frame.response resp.to_dict], [.request]⟩ ∧
    resp.to_dict.get "id" = some X := by
  refine ⟨dispatch_request_ok m now fs ds resp htype hdata hreq, ?_⟩
  rw [to_dict_get_id, hecho]
  simp [Request.from_dict, Json.getD, hid]

/-- Witness for C4 at a request with id `"42"` against the echoing
fixture. -/
theorem request_response_echoes_id_witness :
    (Json.obj [("id", Json.str "42")]).get "id" = some (Json.str "42") ∧
    (handle_command w_module 7 (.ok (Json.obj [("type", Json.str "request"),
        ("data", Json.obj [("id", Json.str "42")])]))
      = ⟨[Frame.response (mkResponse (Json.str "42") true none none none).to_dict],
         [.request]⟩ ∧
    (mkResponse (Json.str "42") true none none none).to_dict.get "id"
      = some (Json.str "42")) :=
  ⟨rfl,
    request_response_echoes_id w_module 7
      [("type", Json.str "request"), ("data", Json.obj [("id", Json.str "42")])]
      [("id", Json.str "42")] (Json.str "42")
      (mkResponse (Json.str "42") true none none none) rfl rfl rfl rfl rfl⟩

/-- Claim C5 (confirmed): a malformed-JSON command line yields exactly
one `KENNEL_ERROR` frame; so does an envelope whose request, event or
health handler raises (each caught by the `except` at line 374 — by
construction of `handle_command` nothing propagates); and the loop goes
on to process a subsequent valid command before stopping. -/
theorem bad_command_isolated (m : ModuleBehavior) (loads : String → Except String Json)
    (now : Int) (e_json e_req e_ev e_hc : String)
    (ds dsE dsG : List (String × Json)) (respG : Response)
    (input : Nat → String) (sBad sGood : String)
    (hreq : m.handle_request (Request.from_dict (Json.obj ds)) = .error e_req)
    (hev : m.handle_event (Event.from_dict (Json.obj dsE) now) = .error e_ev)
    (hhc : m.check_health_impl now = .error e_hc)
    (hbad : loads sBad = .error e_json)
    (hgood : loads sGood
      = .ok (Json.obj [("type", Json.str "request"), ("data", Json.obj dsG)]))
    (hgoodreq : m.handle_request (Request.from_dict (Json.obj dsG)) = .ok respG)
    (hi0 : py_strip (input 0).toList = "KENNEL_COMMAND:".toList ++ sBad.toList)
    (hi1 : py_strip (input 1).toList = "KENNEL_COMMAND:".toList ++ sGood.toList)
    (hi2 : py_strip (input 2).toList = "KENNEL_STOP".toList) :
    handle_command m now (.error e_json) = ⟨[send_error_response e_json], []⟩ ∧
    (handle_command m now (.ok (Json.obj [("type", Json.str "request"),
        ("data", Json.obj ds)]))).frames = [send_error_response e_req] ∧
    (handle_command m now (.ok (Json.obj [("type", Json.str "event"),
        ("data", Json.obj dsE)]))).frames = [send_error_response e_ev] ∧
    (handle_command m now (.ok (Json.obj [("type", Json.str "health_check"),
        ("data", Json.obj [])]))).frames = [send_error_response e_hc] ∧
    command_loop_steps m loads now input 3 0 []
      = .finished [send_error_response e_json, Frame.response respG.to_dict] := by
  have hdg : handle_command m now
      (.ok (Json.obj [("type", Json.str "request"), ("data", Json.obj dsG)]))
      = ⟨[Frame.response respG.to_dict], [.request]⟩ :=
    dispatch_request_ok m now _ dsG respG rfl rfl hgoodreq
  refine ⟨rfl, ?_, ?_, ?_, ?_⟩
  · simp [handle_command, Json.eqStr, Json.getD, Json.get, findField, hreq]
  · simp [handle_command, Json.eqStr, Json.getD, Json.get, findField, hev]
  · simp [handle_command, Json.eqStr, Json.getD, Json.get, findField, hhc]
  · calc
      command_loop_steps m loads now input 3 0 []
          = command_loop_steps m loads now input 2 1
              ([] ++ (handle_command m now (loads sBad)).frames) :=
        loop_step_cmd m loads now input 2 0 [] sBad hi0
      _ = command_loop_steps m loads now input 2 1 [send_error_response e_json] := by
        rw [hbad]; rfl
      _ = command_loop_steps m loads now input 1 2
            ([send_error_response e_json]
              ++ (handle_command m now (loads sGood)).frames) :=
        loop_step_cmd m loads now input 1 1 _ sGood hi1
      _ = command_loop_steps m loads now input 1 2
            [send_error_response e_json, Frame.response respG.to_dict] := by
        rw [hgood, hdg]; rfl
      _ = .finished [send_error_response e_json, Frame.response respG.to_dict] :=
        loop_step_stop m loads now input 0 2 _ hi2

/-- Witness for C5: concrete malformed command, raising handlers, and
recovery on a following valid request. -/
theorem bad_command_isolated_witness :
    w_loads "BAD" = .error "Expecting value" ∧
    w_mixed.handle_request (Request.from_dict (Json.obj [("id", Json.str "bad")]))
      = .error "boom" ∧
    (handle_command w_mixed 7 (.error "Expecting value")
        = ⟨[send_error_response "Expecting value"], []⟩ ∧
    (handle_command w_mixed 7 (.ok (Json.obj [("type", Json.str "request"),
        ("data", Json.obj [("id", Json.str "bad")])]))).frames
      = [send_error_response "boom"] ∧
    (handle_command w_mixed 7 (.ok (Json.obj [("type", Json.str "event"),
        ("data", Json.obj [("id", Json.str "bad")])]))).frames
      = [send_error_response "event boom"] ∧
    (handle_command w_mixed 7 (.ok (Json.obj [("type", Json.str "health_check"),
        ("data", Json.obj [])]))).frames
      = [send_error_response "health boom"] ∧
    command_loop_steps w_mixed w_loads 7 w_input_bad 3 0 []
      = .finished [send_error_response "Expecting value",
          Frame.response (mkResponse (Json.str "1") true none none none).to_dict]) :=
  ⟨rfl, rfl,
    bad_command_isolated w_mixed w_loads 7
      "Expecting value" "boom" "event boom" "health boom"
      [("id", Json.str "bad")] [("id", Json.str "bad")] [("id", Json.str "1")]
      (mkResponse (Json.str "1") true none none none)
      w_input_bad "BAD" "GOOD"
      rfl rfl rfl rfl rfl rfl rfl rfl rfl⟩

/-- Claim C6 (confirmed): if `init` raises — or `init` returns and
`start` raises — `run` emits exactly one `KENNEL_PLUGIN_ERROR` frame
whose payload carries the plugin id and the error message, exits with
code 1, and `stop()` is never invoked (the loop was never entered), a
path disjoint from every graceful shutdown. -/
theorem startup_failure_one_error_exit1 (m : ModuleBehavior)
    (loads : String → Except String Json) (plugin_id config_json : String)
    (config : Json) (e : String)
    (hload : loads config_json = .ok config)
    (hfail : m.init config = .error e ∨ (m.init config = .ok () ∧ m.start = .error e)) :
    run_startup m loads plugin_id config_json
      = .startupFailure [Frame.pluginError (plugin_error_payload plugin_id e)] 1 0 := by
  rcases hfail with h | ⟨hi, hs⟩
  · simp [run_startup, hload, h]
  · simp [run_startup, hload, hi, hs]

/-- Witness for C6 with the failing-`init` fixture. -/
theorem startup_failure_one_error_exit1_witness :
    w_loads "CFG" = .ok (Json.obj []) ∧
    w_bad_init.init (Json.obj []) = .error "init failed" ∧
    run_startup w_bad_init w_loads "pid" "CFG"
      = .startupFailure [Frame.pluginError (plugin_error_payload "pid" "init failed")] 1 0 :=
  ⟨rfl, rfl,
    startup_failure_one_error_exit1 w_bad_init w_loads "pid" "CFG" (Json.obj [])
      "init failed" rfl (Or.inl rfl)⟩

/-- Claim C8 (confirmed): an event envelope whose handler returns a
boolean yields exactly one `KENNEL_EVENT_RESPONSE` frame whose
`event_id` is the constructed event's id and whose `success` is the
handler's boolean; and when the envelope's data has no `timestamp` key
the constructed event's timestamp is the clock reading `now`. -/
theorem event_dispatch_response (m : ModuleBehavior) (now : Int)
    (fs ds : List (String × Json)) (b : Bool)
    (htype : (Json.obj fs).getD "type" (Json.str "") = Json.str "event")
    (hdata : (Json.obj fs).getD "data" (Json.obj []) = Json.obj ds)
    (hev : m.handle_event (Event.from_dict (Json.obj ds) now) = .ok b) :
    handle_command m now (.ok (Json.obj fs))
      = ⟨[send_event_response (Event.from_dict (Json.obj ds) now).id b], [.event]⟩ ∧
    ((Json.obj ds).get "timestamp" = none →
      (Event.from_dict (Json.obj ds) now).timestamp = Json.num now) := by
  constructor
  · simp [handle_command, htype, hdata, hev, Json.eqStr]
  · intro hts
    simp [Event.from_dict, Json.getD, hts, pyOr]

/-- Witness for C8 at an event with id `"e1"` and no timestamp. -/
theorem event_dispatch_response_witness :
    w_module.handle_event (Event.from_dict
        (Json.obj [("id", Json.str "e1"), ("type", Json.str "system.startup")]) 7)
      = .ok true ∧
    (handle_command w_module 7 (.ok (Json.obj [("type", Json.str "event"),
        ("data", Json.obj [("id", Json.str "e1"), ("type", Json.str "system.startup")])]))
      = ⟨[send_event_response (Event.from_dict
            (Json.obj [("id", Json.str "e1"), ("type", Json.str "system.startup")]) 7).id
            true], [.event]⟩ ∧
    ((Json.obj [("id", Json.str "e1"), ("type", Json.str "system.startup")]).get "timestamp"
        = none →
      (Event.from_dict
          (Json.obj [("id", Json.str "e1"), ("type", Json.str "system.startup")]) 7).timestamp
        = Json.num 7)) :=
  ⟨rfl,
    event_dispatch_response w_module 7
      [("type", Json.str "event"),
       ("data", Json.obj [("id", Json.str "e1"), ("type", Json.str "system.startup")])]
      [("id", Json.str "e1"), ("type", Json.str "system.startup")] true rfl rfl rfl⟩

end Kennel
